import Mathlib

/-!
Verification of the Streamlit price tool (`src/price_tool.py`).

Shallow embedding conventions:
* Python floats are modelled as exact rationals `ℚ`; `round(x, 3)` is
  modelled by `round3` (round to the nearest multiple of 1/1000).
* Network fetches are modelled by their outcome: an `Option`/inductive
  value describing what the HTTP layer produced; a Python exception that
  is caught corresponds to a `none`/failure constructor.
* Streamlit session state and widget values are passed explicitly.
-/

namespace PriceTool

/-- `round(x, 3)`: round to 3 decimal places (`price_tool.py` lines 110-112, 194). -/
def round3 (x : ℚ) : ℚ := (round (x * 1000) : ℤ) / 1000

/-- One row of the price table built by `calculate_price_table`
(the dict appended at lines 107-113).  The percent label `f"{int(r*100)}%"`
is kept as the integer `int(r*100)` (truncation; all ratios are nonnegative,
so it is the floor). -/
structure PriceRow where
  ratio : ℚ
  ratioPercent : ℤ
  sellingPrice : ℚ
  unitProfit : ℚ
  totalProfit : ℚ
deriving DecidableEq, Repr

/-- The fixed ratio list `rates = [0.1, 0.15, 0.2, 0.25, 0.3, 0.35, 0.5]`
(line 102). -/
def ratio_list : List ℚ := [0.1, 0.15, 0.2, 0.25, 0.3, 0.35, 0.5]

/-- The loop body of `calculate_price_table` (lines 105-113). -/
def priceRow (cost_twd : ℚ) (quantity : ℤ) (r : ℚ) : PriceRow :=
  let selling_price := cost_twd / (1 - r)
  { ratio := r
    ratioPercent := ⌊r * 100⌋
    sellingPrice := round3 selling_price
    unitProfit := round3 (selling_price - cost_twd)
    totalProfit := round3 ((selling_price - cost_twd) * quantity) }

/-- `calculate_price_table(cost, currency, rate, quantity)` (lines 100-115):
converts the cost to TWD, then builds one row per ratio; returns the rows
and `cost_twd`. -/
def calculate_price_table (cost : ℚ) (currency : String) (rate : ℚ)
    (quantity : ℤ) : List PriceRow × ℚ :=
  let cost_twd := if currency = "TWD" then cost else cost * rate
  (ratio_list.map (priceRow cost_twd quantity), cost_twd)

/-- The margin-price formula `cost_twd / (1 - r)` shared by the table
(line 106) and the KPI block (line 161). -/
def margin_price (cost : ℚ) (r : ℚ) : ℚ := cost / (1 - r)

/-- The KPI block under the slider (lines 158-163): from the slider value
`profit_ratio` (in percent) compute `(selling_price, unit_profit,
total_profit)`; none of these is rounded before display. -/
def kpi_metrics (cost_twd : ℚ) (profit_ratio : ℚ) (quantity : ℤ) :
    ℚ × ℚ × ℚ :=
  let profit_ratio_float := profit_ratio / 100
  let selling_price := cost_twd / (1 - profit_ratio_float)
  let unit_profit := selling_price - cost_twd
  (selling_price, unit_profit, unit_profit * quantity)

/-- A row of the scraped bank-rate HTML table: its full text and the text
contents of its `td` cells (`row.text`, `row.select("td")` at lines 51-53). -/
structure HtmlRow where
  text : String
  tds : List String
deriving DecidableEq, Repr

/-- Outcome of the HTTP layer for the bank-page fetch: a network error
(`requests.get` raising), a non-2xx status (`raise_for_status` raising),
or a parsed list of table rows (`soup.select("table.table tbody tr")`). -/
inductive FetchOutcome where
  | netError : FetchOutcome
  | httpError : Nat → FetchOutcome
  | ok : List HtmlRow → FetchOutcome
deriving DecidableEq, Repr

/-- The label `"美元"` (USD) searched for in the row text (line 52). -/
def usdLabel : String := "美元"

/-- `get_tw_bank_usd_rate()` (lines 44-56).  `parse_float` stands for
Python's `float(...)`, returning `none` where it would raise `ValueError`
(the `except` clause catches it).  The function scans the rows for the
first one whose text contains `"美元"`, takes cell index 4, strips it and
parses it; on any failure along the way (network error, HTTP error, no
matching row, missing cell, parse error) the exception is swallowed and
`None` is returned. -/
def get_tw_bank_usd_rate (parse_float : String → Option ℚ) :
    FetchOutcome → Option ℚ
  | .netError => none
  | .httpError _ => none
  | .ok rows =>
    match rows.find? (fun row => row.text.containsSubstr usdLabel.toSubstring) with
    | none => none
    | some row =>
      match row.tds.get? 4 with
      | none => none
      | some cell => parse_float cell.trim

/-- The failure condition for the bank fetch, enumerating the failure modes
of lines 44-56 structurally: network error, non-2xx status, no `"美元"` row,
fewer than 5 cells in the matching row, or an unparsable cell. -/
def fetchFailed (parse_float : String → Option ℚ) : FetchOutcome → Bool
  | .netError => true
  | .httpError _ => true
  | .ok rows =>
    match rows.find? (fun row => row.text.containsSubstr usdLabel.toSubstring) with
    | none => true
    | some row =>
      match row.tds.get? 4 with
      | none => true
      | some cell => (parse_float cell.trim).isNone

/-- Python's `x or default` on an optional float: `None` and `0.0` are
falsy, any other float is returned as is. -/
def pyOr (x : Option ℚ) (default : ℚ) : ℚ :=
  match x with
  | none => default
  | some v => if v = 0 then default else v

/-- Session-state initialisation (lines 130-131): when `usd_rate` is
already in the session it is kept; otherwise it is set to
`get_tw_bank_usd_rate() or 32.0`. -/
def init_usd_rate (session : Option ℚ) (fetched : Option ℚ) : ℚ :=
  match session with
  | some cached => cached
  | none => pyOr fetched 32.0

/-- The refresh-button handler (lines 146-151): re-fetch, and only when the
result is truthy (`if new_rate:`) store it in the session; otherwise the
stored rate is left unchanged. -/
def refresh_usd_rate (session : ℚ) (fetched : Option ℚ) : ℚ :=
  match fetched with
  | none => session
  | some v => if v = 0 then session else v

/-- `get_display_currency_rates()` (lines 84-97).  The two fetch results
are the inputs: `ecb_fetch` is what `get_ecb_rates()` produced (`none` when
it raised; lines 60-71 let any exception escape to the caller) and
`yahoo_fetch` is what `get_yahoo_rate("EURTWD")` produced (`none` when it
raised; lines 75-80 likewise).  Both calls sit in one `try` block, so if
either raises, the dict is returned holding only `{"TWD": 1.0}`; otherwise
EUR, USD and JPY are appended, the latter two via `ecb.get(c, 0)`. -/
def get_display_currency_rates (ecb_fetch : Option (List (String × ℚ)))
    (yahoo_fetch : Option ℚ) : List (String × ℚ) :=
  match ecb_fetch, yahoo_fetch with
  | some ecb, some eur_twd =>
    [("TWD", 1), ("EUR", eur_twd),
     ("USD", eur_twd * ((ecb.lookup "USD").getD 0)),
     ("JPY", eur_twd * ((ecb.lookup "JPY").getD 0))]
  | _, _ => [("TWD", 1)]

/-- Display-rate selection (lines 183-188): when the selected display
currency is missing from the rate table, fall back to rate 1.0 and flag a
warning (`Bool` = warning shown); otherwise use the table entry. -/
def select_display_rate (ratesTable : List (String × ℚ))
    (display_currency : String) : ℚ × Bool :=
  match ratesTable.lookup display_currency with
  | none => (1.0, true)
  | some v => (v, false)

/-- The displayed selling-price column (lines 192-194):
`(df["利潤率售價 (TWD)"] / display_rate).round(3)`. -/
def render_display_prices (rows : List PriceRow) (display_rate : ℚ) :
    List ℚ :=
  rows.map (fun row => round3 (row.sellingPrice / display_rate))

/-! ### Helper lemmas about `round3` -/

/-- `round3` is monotone. -/
theorem round3_mono {x y : ℚ} (h : x ≤ y) : round3 x ≤ round3 y := by
  unfold round3
  have h1 : round (x * 1000) ≤ round (y * 1000) := by
    rw [round_eq, round_eq]
    exact Int.floor_le_floor (by linarith)
  have h2 : ((round (x * 1000) : ℤ) : ℚ) ≤ ((round (y * 1000) : ℤ) : ℚ) := by
    exact_mod_cast h1
  linarith

/-- Rounding to 3 decimals moves a value by at most `1/2000`. -/
theorem abs_round3_sub (x : ℚ) : |round3 x - x| ≤ 1 / 2000 := by
  have h := abs_sub_round (x * 1000)
  rw [abs_sub_comm] at h
  have e : round3 x - x = (((round (x * 1000) : ℤ) : ℚ) - x * 1000) / 1000 := by
    unfold round3; ring
  rw [e, abs_div]
  have h1000 : |(1000 : ℚ)| = 1000 := by norm_num
  rw [h1000]
  linarith

/-- Rounding before or after multiplying by a nonnegative integer `q`
changes the product by at most `(q + 1)/2000`. -/
theorem round3_mul_int_bound (u : ℚ) (q : ℤ) (hq : 0 ≤ q) :
    |round3 (u * q) - round3 u * q| ≤ ((q : ℚ) + 1) / 2000 := by
  have hq' : (0 : ℚ) ≤ (q : ℚ) := by exact_mod_cast hq
  have h1 := abs_round3_sub (u * q)
  have h2 : |u - round3 u| ≤ 1 / 2000 := by
    rw [abs_sub_comm]; exact abs_round3_sub u
  have h3 : |u * q - round3 u * q| = |u - round3 u| * (q : ℚ) := by
    rw [← sub_mul, abs_mul, abs_of_nonneg hq']
  have h4 : |u * q - round3 u * q| ≤ (q : ℚ) / 2000 := by
    rw [h3]
    calc |u - round3 u| * (q : ℚ) ≤ (1 / 2000) * (q : ℚ) :=
          mul_le_mul_of_nonneg_right h2 hq'
      _ = (q : ℚ) / 2000 := by ring
  calc |round3 (u * q) - round3 u * q|
      ≤ |round3 (u * q) - u * q| + |u * q - round3 u * q| :=
        abs_sub_le _ _ _
    _ ≤ 1 / 2000 + (q : ℚ) / 2000 := add_le_add h1 h4
    _ = ((q : ℚ) + 1) / 2000 := by ring

/-- Any of the enumerated bank-fetch failure modes makes
`get_tw_bank_usd_rate` return `None` (the `except` clause at lines 54-56
swallows every exception). -/
theorem get_rate_none_of_failed (parse_float : String → Option ℚ)
    (f : FetchOutcome) (h : fetchFailed parse_float f = true) :
    get_tw_bank_usd_rate parse_float f = none := by
  cases f with
  | netError => rfl
  | httpError s => rfl
  | ok rows =>
    simp only [get_tw_bank_usd_rate, fetchFailed] at h ⊢
    cases hfind : rows.find?
        (fun row => row.text.containsSubstr usdLabel.toSubstring) with
    | none => simp only [hfind]
    | some row =>
      simp only [hfind] at h ⊢
      cases hcell : row.tds.get? 4 with
      | none => simp only [hcell]
      | some cell =>
        simp only [hcell] at h ⊢
        exact Option.isNone_iff_eq_none.mp h

/-! ### C1: margin formula and its strictness -/

/-- C1 counterexample: the slider's range starts at 0%, and at ratio
`r = 0` (with cost `1 > 0`, `0 ≤ r < 1`) the margin price `cost / (1 - r)`
equals the cost instead of being strictly greater; the KPI path
(lines 158-163) produces exactly this price at slider value 0. -/
theorem C1_strict_at_zero_counterexample :
    (0 : ℚ) < 1 ∧ (0 : ℚ) ≤ 0 ∧ (0 : ℚ) < 1 ∧
    margin_price 1 0 = 1 ∧ ¬ (1 : ℚ) < margin_price 1 0 ∧
    (kpi_metrics 1 0 100).1 = margin_price 1 0 := by
  norm_num [margin_price, kpi_metrics]

/-- C1 (amended): for `cost > 0` and `0 ≤ r < 1` the margin price equals
`cost / (1 - r)` and is at least the cost, strictly greater exactly when
`r > 0`; the KPI selling price at slider value `r * 100` percent is this
margin price. -/
theorem C1_margin_price_formula (cost r : ℚ) (hc : 0 < cost) (h0 : 0 ≤ r)
    (h1 : r < 1) :
    margin_price cost r = cost / (1 - r) ∧
    cost ≤ margin_price cost r ∧
    (0 < r → cost < margin_price cost r) ∧
    ∀ q : ℤ, (kpi_metrics cost (r * 100) q).1 = margin_price cost r := by
  refine ⟨rfl, ?_, ?_, ?_⟩
  · exact le_div_self hc.le (by linarith) (by linarith)
  · intro hr
    unfold margin_price
    calc cost = cost / 1 := (div_one cost).symm
      _ < cost / (1 - r) := div_lt_div_of_pos_left hc (by linarith) (by linarith)
  · intro q
    have h100 : r * 100 / 100 = r := mul_div_cancel_right₀ r (by norm_num)
    simp [kpi_metrics, margin_price, h100]

/-- C1 witness: the amended theorem instantiated at cost 2, ratio 1/4. -/
theorem C1_margin_price_formula_witness :
    margin_price 2 (1 / 4) = 2 / (1 - 1 / 4) ∧
    (2 : ℚ) ≤ margin_price 2 (1 / 4) ∧
    ((0 : ℚ) < 1 / 4 → (2 : ℚ) < margin_price 2 (1 / 4)) ∧
    ∀ q : ℤ, (kpi_metrics 2 (1 / 4 * 100) q).1 = margin_price 2 (1 / 4) :=
  C1_margin_price_formula 2 (1 / 4) (by norm_num) (by norm_num) (by norm_num)

/-! ### C5: currency conversion -/

/-- C5: the `cost_twd` returned by `calculate_price_table` is the input
cost when the currency is TWD and `cost * rate` otherwise (line 101),
for any positive rate. -/
theorem C5_currency_conversion (cost : ℚ) (currency : String) (rate : ℚ)
    (quantity : ℤ) (hrate : 0 < rate) :
    (currency = "TWD" →
      (calculate_price_table cost currency rate quantity).2 = cost) ∧
    (currency ≠ "TWD" →
      (calculate_price_table cost currency rate quantity).2 = cost * rate) := by
  constructor <;> intro h <;> simp [calculate_price_table, h]

/-- C5 witness: conversion at cost 1.3 USD with rate 32. -/
theorem C5_currency_conversion_witness :
    (("USD" : String) = "TWD" →
      (calculate_price_table 1.3 "USD" 32 100).2 = 1.3) ∧
    (("USD" : String) ≠ "TWD" →
      (calculate_price_table 1.3 "USD" 32 100).2 = 1.3 * 32) :=
  C5_currency_conversion 1.3 "USD" 32 100 (by norm_num)

/-! ### C7: shape and order of the table -/

/-- C7: for all inputs the table has exactly 7 rows, their ratios are the
fixed list `[0.1, 0.15, 0.2, 0.25, 0.3, 0.35, 0.5]`, and those ratios are
strictly ascending. -/
theorem C7_table_shape (cost : ℚ) (currency : String) (rate : ℚ)
    (quantity : ℤ) :
    ((calculate_price_table cost currency rate quantity).1).length = 7 ∧
    ((calculate_price_table cost currency rate quantity).1).map
        (fun row => row.ratio) = [0.1, 0.15, 0.2, 0.25, 0.3, 0.35, 0.5] ∧
    List.Chain' (· < ·)
      (((calculate_price_table cost currency rate quantity).1).map
        (fun row => row.ratio)) := by
  refine ⟨rfl, rfl, ?_⟩
  have e : ((calculate_price_table cost currency rate quantity).1).map
      (fun row => row.ratio) = ratio_list := rfl
  rw [e]
  norm_num [ratio_list, List.chain'_cons]

/-! ### C2: fallibility structure of the secondary rate path -/

/-- C2 counterexample: if only the ECB fetch fails while the Yahoo
EUR→TWD quote succeeds (here with value 35), the EUR display rate — which
is derived from the Yahoo quote alone — is nevertheless unavailable:
the single `try` block at lines 87-95 aborts on the first exception and
leaves only TWD in the table. -/
theorem C2_ecb_failure_aborts_eur_counterexample :
    (List.lookup "EUR" (get_display_currency_rates none (some 35))).isNone
      = true ∧
    get_display_currency_rates none (some 35) = [("TWD", 1)] := by
  constructor <;> rfl

/-- C2 (amended): the ECB fetch and the Yahoo fetch are sequenced inside a
single fallible block, so the failure of either one resolves all three
foreign display currencies (EUR, USD, JPY) to unavailable at once; only
TWD remains in the table. -/
theorem C2_single_try_block (ecb_fetch : Option (List (String × ℚ)))
    (yahoo_fetch : Option ℚ)
    (h : ecb_fetch = none ∨ yahoo_fetch = none) :
    get_display_currency_rates ecb_fetch yahoo_fetch = [("TWD", 1)] := by
  rcases h with h | h <;> subst h
  · cases yahoo_fetch <;> rfl
  · cases ecb_fetch <;> rfl

/-- C2 witness: ECB failing while Yahoo succeeds leaves only TWD. -/
theorem C2_single_try_block_witness :
    get_display_currency_rates none (some 35) = [("TWD", 1)] :=
  C2_single_try_block none (some 35) (Or.inl rfl)

/-! ### C3: total profit vs unit profit × quantity -/

/-- C3 counterexample: with cost 1 TWD and quantity 100, the row at ratio
0.15 displays unit profit `round(3/17, 3) = 0.176` and total profit
`round(300/17, 3) = 17.647`, but `0.176 × 100 = 17.6 ≠ 17.647`: the two
columns are rounded separately (lines 111-112), so the displayed identity
fails. -/
theorem C3_rounding_counterexample :
    ∃ row ∈ (calculate_price_table 1 "TWD" 32 100).1,
      ¬ row.totalProfit = row.unitProfit * 100 := by
  refine ⟨priceRow 1 100 0.15, ?_, ?_⟩
  · show priceRow 1 100 0.15 ∈ (calculate_price_table 1 "TWD" 32 100).1
    have e : (calculate_price_table 1 "TWD" 32 100).1
        = ratio_list.map (priceRow 1 100) := by
      simp [calculate_price_table]
    rw [e]
    exact List.mem_map_of_mem _ (by norm_num [ratio_list])
  · norm_num [priceRow, round3, round_eq]

/-- C3 (amended): the identity `total_profit = unit_profit × quantity`
holds exactly for the unrounded KPI figures (lines 161-163); in the table
rows the two columns are each rounded to 3 decimals, so the displayed
total differs from displayed-unit × quantity by at most
`(quantity + 1)/2000` TWD. -/
theorem C3_total_profit_identity (cost : ℚ) (currency : String) (rate : ℚ)
    (quantity : ℤ) (hq : 0 < quantity) :
    (∀ cost_twd profit_ratio : ℚ,
      (kpi_metrics cost_twd profit_ratio quantity).2.2 =
        (kpi_metrics cost_twd profit_ratio quantity).2.1 * quantity) ∧
    ∀ row ∈ (calculate_price_table cost currency rate quantity).1,
      |row.totalProfit - row.unitProfit * (quantity : ℚ)|
        ≤ ((quantity : ℚ) + 1) / 2000 := by
  constructor
  · intro cost_twd profit_ratio
    rfl
  · intro row hrow
    simp only [calculate_price_table, List.mem_map] at hrow
    obtain ⟨r, _, rfl⟩ := hrow
    simpa [priceRow] using
      round3_mul_int_bound
        ((if currency = "TWD" then cost else cost * rate) / (1 - r)
          - (if currency = "TWD" then cost else cost * rate))
        quantity hq.le

/-- C3 witness: the amended theorem at cost 1 TWD, rate 32, quantity 100. -/
theorem C3_total_profit_identity_witness :
    (∀ cost_twd profit_ratio : ℚ,
      (kpi_metrics cost_twd profit_ratio 100).2.2 =
        (kpi_metrics cost_twd profit_ratio 100).2.1 * 100) ∧
    ∀ row ∈ (calculate_price_table 1 "TWD" 32 100).1,
      |row.totalProfit - row.unitProfit * ((100 : ℤ) : ℚ)|
        ≤ (((100 : ℤ) : ℚ) + 1) / 2000 :=
  C3_total_profit_identity 1 "TWD" 32 100 (by norm_num)

/-! ### C4: bank-fetch failure handling -/

/-- C4: on any bank-page fetch failure (network error, non-2xx status,
missing row or cell, parse error) `get_tw_bank_usd_rate` returns `None`
(no exception escapes: the embedding is a total function), and the
session initialisation at lines 130-131 then falls back to the default
32.0, or keeps a pre-existing cached value untouched. -/
theorem C4_fetch_failure_fallback (parse_float : String → Option ℚ)
    (f : FetchOutcome) (h : fetchFailed parse_float f = true) :
    get_tw_bank_usd_rate parse_float f = none ∧
    init_usd_rate none (get_tw_bank_usd_rate parse_float f) = 32.0 ∧
    ∀ cached, init_usd_rate (some cached)
      (get_tw_bank_usd_rate parse_float f) = cached := by
  have hnone := get_rate_none_of_failed parse_float f h
  refine ⟨hnone, ?_, fun cached => rfl⟩
  rw [hnone]
  rfl

/-- C4 witness: a network error yields `None` and the 32.0 default. -/
theorem C4_fetch_failure_fallback_witness :
    get_tw_bank_usd_rate (fun _ => none) .netError = none ∧
    init_usd_rate none (get_tw_bank_usd_rate (fun _ => none) .netError)
      = 32.0 ∧
    ∀ cached, init_usd_rate (some cached)
      (get_tw_bank_usd_rate (fun _ => none) .netError) = cached :=
  C4_fetch_failure_fallback (fun _ => none) .netError rfl

/-! ### C6: monotonicity of the selling price in the ratio -/

/-- C6 counterexample: with cost 0.001 TWD (a value the cost input's
0.001 step allows, and `cost_twd > 0`), the rows at ratios 0.1 and 0.15
both display the selling price 0.001 after 3-decimal rounding, so the
displayed price at the larger ratio is not strictly greater. -/
theorem C6_rounded_price_not_strict_counterexample :
    0 < (calculate_price_table 0.001 "TWD" 32 100).2 ∧
    ∃ r1 ∈ (calculate_price_table 0.001 "TWD" 32 100).1,
      ∃ r2 ∈ (calculate_price_table 0.001 "TWD" 32 100).1,
        r1.ratio < r2.ratio ∧ ¬ r1.sellingPrice < r2.sellingPrice := by
  have e : (calculate_price_table 0.001 "TWD" 32 100).1
      = ratio_list.map (priceRow 0.001 100) := by
    simp [calculate_price_table]
  refine ⟨by norm_num [calculate_price_table], priceRow 0.001 100 0.1, ?_,
    priceRow 0.001 100 0.15, ?_, ?_, ?_⟩
  · rw [e]; exact List.mem_map_of_mem _ (by norm_num [ratio_list])
  · rw [e]; exact List.mem_map_of_mem _ (by norm_num [ratio_list])
  · norm_num [priceRow]
  · norm_num [priceRow, round3, round_eq]

/-- C6 (amended): for `cost_twd > 0` the exact selling price
`cost_twd / (1 - r)` is strictly increasing along the table's rows, and
the displayed (3-decimal-rounded) selling price is monotonically
non-decreasing; strictness can be lost to rounding. -/
theorem C6_price_monotone (cost : ℚ) (currency : String) (rate : ℚ)
    (quantity : ℤ)
    (h : 0 < (calculate_price_table cost currency rate quantity).2) :
    ((calculate_price_table cost currency rate quantity).1).Pairwise
      (fun a b =>
        margin_price (calculate_price_table cost currency rate quantity).2
            a.ratio <
          margin_price (calculate_price_table cost currency rate quantity).2
            b.ratio ∧
        a.sellingPrice ≤ b.sellingPrice) := by
  have e : (calculate_price_table cost currency rate quantity).1
      = ratio_list.map
          (priceRow (calculate_price_table cost currency rate quantity).2
            quantity) := rfl
  rw [e, List.pairwise_map]
  have hbounds : ∀ r ∈ ratio_list, 0 ≤ r ∧ r < 1 := by
    intro r hr
    simp only [ratio_list, List.mem_cons, List.not_mem_nil, or_false] at hr
    rcases hr with rfl | rfl | rfl | rfl | rfl | rfl | rfl <;>
      constructor <;> norm_num
  have hpair : ratio_list.Pairwise (· < ·) := by
    simp only [ratio_list, List.pairwise_cons, List.mem_cons,
      List.not_mem_nil, or_false, List.Pairwise.nil, and_true]
    norm_num
  refine hpair.imp_of_mem ?_
  intro a b ha hb hab
  obtain ⟨ha0, ha1⟩ := hbounds a ha
  obtain ⟨hb0, hb1⟩ := hbounds b hb
  have hmono : margin_price (calculate_price_table cost currency rate
      quantity).2 a < margin_price (calculate_price_table cost currency rate
      quantity).2 b := by
    unfold margin_price
    exact div_lt_div_of_pos_left h (by linarith) (by linarith)
  exact ⟨hmono, round3_mono hmono.le⟩

/-- C6 witness: the amended monotonicity at cost 1 TWD. -/
theorem C6_price_monotone_witness :
    ((calculate_price_table 1 "TWD" 32 100).1).Pairwise
      (fun a b =>
        margin_price (calculate_price_table 1 "TWD" 32 100).2 a.ratio <
          margin_price (calculate_price_table 1 "TWD" 32 100).2 b.ratio ∧
        a.sellingPrice ≤ b.sellingPrice) :=
  C6_price_monotone 1 "TWD" 32 100 (by norm_num [calculate_price_table])

/-! ### C8: display-rate fallback -/

/-- C8: when the selected display currency is missing from the fetched
rate table, the display rate falls back to 1.0 with a warning flag, and
the price table is still rendered against that rate — one displayed price
per row, equal to the row's TWD price re-rounded. -/
theorem C8_display_rate_fallback (ratesTable : List (String × ℚ))
    (display_currency : String) (rows : List PriceRow)
    (h : ratesTable.lookup display_currency = none) :
    select_display_rate ratesTable display_currency = (1.0, true) ∧
    render_display_prices rows
        (select_display_rate ratesTable display_currency).1
      = rows.map (fun row => round3 row.sellingPrice) ∧
    (render_display_prices rows
        (select_display_rate ratesTable display_currency).1).length
      = rows.length := by
  have hs : select_display_rate ratesTable display_currency = (1.0, true) := by
    unfold select_display_rate
    rw [h]
  refine ⟨hs, ?_, by simp [render_display_prices]⟩
  rw [hs]
  unfold render_display_prices
  norm_num

/-- C8 witness: the fallback with only TWD fetched and USD selected, on
the table computed for cost 1 TWD. -/
theorem C8_display_rate_fallback_witness :
    select_display_rate [("TWD", 1)] "USD" = (1.0, true) ∧
    render_display_prices (calculate_price_table 1 "TWD" 32 100).1
        (select_display_rate [("TWD", 1)] "USD").1
      = (calculate_price_table 1 "TWD" 32 100).1.map
          (fun row => round3 row.sellingPrice) ∧
    (render_display_prices (calculate_price_table 1 "TWD" 32 100).1
        (select_display_rate [("TWD", 1)] "USD").1).length
      = (calculate_price_table 1 "TWD" 32 100).1.length :=
  C8_display_rate_fallback [("TWD", 1)] "USD"
    (calculate_price_table 1 "TWD" 32 100).1 rfl

/-! ### C9: zero USD rate when the ECB table lacks USD -/

/-- C9: if the ECB fetch succeeds but its table has no USD entry (and the
Yahoo quote succeeds), `ecb.get("USD", 0)` makes the USD display rate
`eur_twd * 0 = 0`; the key is present, so the 1:1 fallback branch is not
taken (warning flag false, selected rate 0) and the displayed prices are
computed by dividing each row's price by the zero rate. -/
theorem C9_missing_usd_gives_zero_rate (ecb : List (String × ℚ)) (y : ℚ)
    (h : ecb.lookup "USD" = none) :
    (get_display_currency_rates (some ecb) (some y)).lookup "USD"
      = some 0 ∧
    select_display_rate (get_display_currency_rates (some ecb) (some y))
      "USD" = (0, false) ∧
    ∀ rows, render_display_prices rows
        (select_display_rate (get_display_currency_rates (some ecb) (some y))
          "USD").1
      = rows.map (fun row => round3 (row.sellingPrice / 0)) := by
  have htab : (get_display_currency_rates (some ecb) (some y)).lookup "USD"
      = some 0 := by
    simp [get_display_currency_rates, List.lookup, h]
  have hsel : select_display_rate
      (get_display_currency_rates (some ecb) (some y)) "USD" = (0, false) := by
    unfold select_display_rate
    rw [htab]
  refine ⟨htab, hsel, fun rows => ?_⟩
  rw [hsel]
  rfl

/-- C9 witness: an ECB table carrying only JPY, Yahoo quote 35. -/
theorem C9_missing_usd_gives_zero_rate_witness :
    (get_display_currency_rates (some [("JPY", 5)]) (some 35)).lookup "USD"
      = some 0 ∧
    select_display_rate
      (get_display_currency_rates (some [("JPY", 5)]) (some 35)) "USD"
      = (0, false) ∧
    ∀ rows, render_display_prices rows
        (select_display_rate
          (get_display_currency_rates (some [("JPY", 5)]) (some 35))
          "USD").1
      = rows.map (fun row => round3 (row.sellingPrice / 0)) :=
  C9_missing_usd_gives_zero_rate [("JPY", 5)] 35 rfl

/-! ### C10: a failed refresh keeps the stored rate -/

/-- C10: the refresh handler stores the freshly fetched rate only when it
is truthy (`if new_rate:` at line 149); when the re-fetch fails — any of
the enumerated failure modes, hence `None` — the stored session rate is
left unchanged. -/
theorem C10_failed_refresh_keeps_rate (parse_float : String → Option ℚ)
    (f : FetchOutcome) (stored : ℚ)
    (h : fetchFailed parse_float f = true) :
    refresh_usd_rate stored (get_tw_bank_usd_rate parse_float f) = stored := by
  rw [get_rate_none_of_failed parse_float f h]
  rfl

/-- C10 witness: a network error during refresh keeps the stored 31.5. -/
theorem C10_failed_refresh_keeps_rate_witness :
    refresh_usd_rate 31.5 (get_tw_bank_usd_rate (fun _ => none) .netError)
      = 31.5 :=
  C10_failed_refresh_keeps_rate (fun _ => none) .netError 31.5 rfl

end PriceTool
